import Mathlib

/-
Verification of the layout/magnification core of `noscrollbars.py`
(classes `Frames` and `Frame`), shallowly embedded over exact rational
arithmetic. Attributes that a Python object does not yet carry (they are
assigned later than `__init__`) are modelled as `Option` fields holding
`none`; an operation that would read such an absent attribute (an
`AttributeError` at run time), or divide by zero, returns `none`.
-/

set_option autoImplicit false

/-- A 2D point, as consumed from the host event collaborator. -/
structure Point where
  x : ℚ
  y : ℚ
deriving DecidableEq

/-- Modelled from the spec: the host rectangle collaborator is not under
`src/`; per the spec it supports a containment test and a percent-within
test. An axis-aligned rectangle given by origin and size. -/
structure Rect where
  x : ℚ
  y : ℚ
  w : ℚ
  h : ℚ
deriving DecidableEq

/-- Modelled from the spec: the containment test of the rectangle
collaborator. -/
def Rect.contains (r : Rect) (p : Point) : Bool :=
  decide (r.x ≤ p.x) && decide (p.x ≤ r.x + r.w) &&
  decide (r.y ≤ p.y) && decide (p.y ≤ r.y + r.h)

/-- Modelled from the spec: the percent-within test of the rectangle
collaborator; reports the relative offset of a point with respect to the
rectangle as an (unclamped) affine map of the coordinates. -/
def Rect.percent (r : Rect) (p : Point) : Point :=
  ⟨(p.x - r.x) / r.w, (p.y - r.y) / r.h⟩

/-- Modelled from the spec: a pointer event carrying a point and a boolean
"is this point inside a given rectangle" predicate, both answered by the
host event collaborator. -/
structure Event where
  motion : Bool
  point : Point
  inside : Option Rect → Bool

/-- The call form `event.mouse_motion()`. -/
def Event.mouse_motion (e : Event) : Bool := e.motion

/-- The call form `event.mouse_motion(inside=r)`: a pointer-motion event
whose point is inside `r`, as answered by the event collaborator. -/
def Event.mouse_motion_inside (e : Event) (r : Option Rect) : Bool :=
  e.motion && e.inside r

/-- The call form `event.mouse_point()`. -/
def Event.mouse_point (e : Event) : Point := e.point

/-- One cell of the strip (Python class `Frame`). `proportion` is absent
until the first update puts the frame in the magnify group; `rectangle` is
absent until the frame first draws. -/
structure Frame where
  number : ℕ
  rectangle : Option Rect
  deflate_height : ℚ
  proportion : Option ℚ
deriving DecidableEq

/-- `Frame.__init__`. -/
def Frame.init (number : ℕ) : Frame :=
  { number := number, rectangle := none, deflate_height := 0, proportion := none }

/-- The state of the Python class `Frames`. The fields
`magnification_percent`, `number_of_frames_to_magnify`, `deflation_base`,
`before`, `magnify` and `after` are created by the first call to `update`;
before that they are absent (`none`). -/
structure Frames where
  frames : List Frame
  rectangle : Option Rect
  position : ℚ
  percent_away_from_vertical_center : ℚ
  magnification_percent : Option ℚ
  number_of_frames_to_magnify : Option ℚ
  deflation_base : Option ℚ
  before : Option (List Frame)
  magnify : Option (List Frame)
  after : Option (List Frame)
deriving DecidableEq

/-- The frame list `[Frame(x) for x in range(n)]`. -/
def mkFrameList (n : ℕ) : List Frame :=
  (List.range n).map Frame.init

/-- `Frames.__init__`: fifty frames numbered 0..49, no container rectangle
yet, position at the middle (`len(self.frames) / 2`), zero vertical
intensity, and no update-created attributes. -/
def Frames.init : Frames :=
  let frames := mkFrameList 50
  { frames := frames
    rectangle := none
    position := (frames.length : ℚ) / 2
    percent_away_from_vertical_center := 0
    magnification_percent := none
    number_of_frames_to_magnify := none
    deflation_base := none
    before := none
    magnify := none
    after := none }

/-- The group a frame is appended to by the loop in `Frames.update`. -/
inductive FrameGroup where
  | before
  | magnify
  | after
deriving DecidableEq

/-- The loop body of `Frames.update` for one frame: decide the group by
comparing `frame.number + 0.5` against `position ∓ offset`, set
`deflate_height` (in the magnify branch it is first set to 0, then
overwritten by `(1 - inverse_percent_away) * deflation_base`), and in the
magnify branch set `proportion`. -/
def Frames.processFrame (position offset deflation_base : ℚ) (f : Frame) :
    Frame × FrameGroup :=
  if (f.number : ℚ) + 1/2 < position - offset then
    ({ f with deflate_height := deflation_base }, FrameGroup.before)
  else if (f.number : ℚ) + 1/2 > position + offset then
    ({ f with deflate_height := deflation_base }, FrameGroup.after)
  else
    let f0 := { f with deflate_height := 0 }
    let inverse_percent_away := 1 - |position - (f.number : ℚ) - 1/2| / offset
    let f1 := { f0 with proportion := some (1 + (2 * inverse_percent_away) ^ 2) }
    let f2 := { f1 with deflate_height := (1 - inverse_percent_away) * deflation_base }
    (f2, FrameGroup.magnify)

/-- `Frames.update(elapsed_ms)`: set `magnification_percent`,
`number_of_frames_to_magnify` (5) and `deflation_base` (30), then walk the
frames in order, mutating each and appending it to exactly one of the
three freshly emptied groups. The walk-and-append is rendered as a map
followed by three order-preserving filters. -/
def Frames.update (self : Frames) (elapsed_ms : ℚ) : Frames :=
  let magnification_percent := 1 * self.percent_away_from_vertical_center
  let number_of_frames_to_magnify : ℚ := 5
  let deflation_base : ℚ := 30
  let offset := number_of_frames_to_magnify / 2
  let processed := self.frames.map
    (Frames.processFrame self.position offset deflation_base)
  { self with
      magnification_percent := some magnification_percent
      number_of_frames_to_magnify := some number_of_frames_to_magnify
      deflation_base := some deflation_base
      frames := processed.map Prod.fst
      before := some ((processed.filter
        (fun q => decide (q.2 = FrameGroup.before))).map Prod.fst)
      magnify := some ((processed.filter
        (fun q => decide (q.2 = FrameGroup.magnify))).map Prod.fst)
      after := some ((processed.filter
        (fun q => decide (q.2 = FrameGroup.after))).map Prod.fst) }

/-- The loop of `Frames.find_position`: walk the frames in order and
collect `frame.number + frame.rectangle.percent(p).x` for every frame
whose recorded rectangle contains `p`. A frame whose rectangle is absent
makes the Python loop raise `AttributeError` (`None.contains`): `none`. -/
def collectPositions (p : Point) : List Frame → Option (List ℚ)
  | [] => some []
  | f :: fs =>
    match f.rectangle with
    | none => none
    | some r =>
      match collectPositions p fs with
      | none => none
      | some rest =>
        some (if r.contains p then
                ((f.number : ℚ) + (r.percent p).x) :: rest
              else rest)

/-- `Frames.find_position(mouse_point)`: average the collected candidate
positions; when none were collected return the idle default
`len(self.frames) / 2`. -/
def Frames.find_position (self : Frames) (mouse_point : Point) : Option ℚ :=
  match collectPositions mouse_point self.frames with
  | none => none
  | some positions =>
    some (if positions ≠ [] then positions.sum / (positions.length : ℚ)
          else (self.frames.length : ℚ) / 2)

/-- `Frames.event(event)`: on a pointer-motion event whose point is inside
the container rectangle, set `position` by hit-test averaging and set
`percent_away_from_vertical_center` to `2 * |0.5 - y-percent|`; every
other event leaves the state unchanged. `none` models the Python
exceptions (absent frame rectangles inside `find_position`, or an absent
container rectangle in the `percent` call). -/
def Frames.event (self : Frames) (e : Event) : Option Frames :=
  if e.mouse_motion then
    if e.mouse_motion_inside self.rectangle then
      match self.find_position e.mouse_point with
      | none => none
      | some pos =>
        match self.rectangle with
        | none => none
        | some r =>
          some { self with
                   position := pos
                   percent_away_from_vertical_center :=
                     2 * |1/2 - (r.percent e.mouse_point).y| }
    else some self
  else some self

/-- The per-frame reads done by `Frames.draw_magnify`: every magnify frame
contributes its `proportion`; an absent `proportion` is an
`AttributeError` (`none`). -/
def readProportions : List Frame → Option (List ℚ)
  | [] => some []
  | f :: fs =>
    match f.proportion, readProportions fs with
    | some v, some rest => some (v :: rest)
    | _, _ => none

/-- `Frames.draw(canvas)`: record the canvas rectangle, then hand the host
canvas the three column bands. Reading `before`, `magnify`, `after` or
`magnification_percent` before the first update raises `AttributeError`
(`none`); a zero frame count raises `ZeroDivisionError` (`none`); the
magnify band reads every magnify frame's `proportion`. Returns the state
with the recorded rectangle together with the band data handed to the
canvas: `len(before)`, the magnify band size, `len(after)`, and the
magnify column proportions. -/
def Frames.draw (self : Frames) (canvas : Rect) :
    Option (Frames × ℕ × ℚ × ℕ × List ℚ) :=
  let self1 := { self with rectangle := some canvas }
  match self1.before, self1.magnify, self1.after, self1.magnification_percent with
  | some b, some m, some a, some mp =>
    if self1.frames.length = 0 then none
    else
      match readProportions m with
      | none => none
      | some props =>
        some (self1, b.length,
              max (2 * (m.length : ℚ) * canvas.w / (self1.frames.length : ℚ))
                  (canvas.w * mp),
              a.length, props)
  | _, _, _, _ => none

/-- The numbers of the frames in the `before` group (empty when the group
attribute is absent). -/
def Frames.beforeNumbers (self : Frames) : List ℕ :=
  (self.before.getD []).map Frame.number

/-- The numbers of the frames in the `magnify` group (empty when the group
attribute is absent). -/
def Frames.magnifyNumbers (self : Frames) : List ℕ :=
  (self.magnify.getD []).map Frame.number

/-- The numbers of the frames in the `after` group (empty when the group
attribute is absent). -/
def Frames.afterNumbers (self : Frames) : List ℕ :=
  (self.after.getD []).map Frame.number

/-- A list of naturals is contiguous: anything between two members is a
member. -/
def ContiguousNums (l : List ℕ) : Prop :=
  ∀ i j k : ℕ, i ∈ l → k ∈ l → i ≤ j → j ≤ k → j ∈ l

/-- The candidate values of the hit-test average, written from the claim:
for each frame whose last-recorded rectangle contains `p`, the value
`index + percentWithin(p).x`. -/
def candidateValues (frames : List Frame) (p : Point) : List ℚ :=
  frames.filterMap (fun f =>
    f.rectangle.bind (fun r =>
      if r.contains p then some ((f.number : ℚ) + (r.percent p).x) else none))

/-- A two-frame state with overlapping recorded rectangles, used to
exercise the tie-averaging of the hit test. -/
def c4TwoFrameState : Frames :=
  { frames := [{ number := 0, rectangle := some ⟨0, 0, 100, 100⟩,
                 deflate_height := 0, proportion := none },
               { number := 1, rectangle := some ⟨0, 0, 200, 100⟩,
                 deflate_height := 0, proportion := none }],
    rectangle := none, position := 0, percent_away_from_vertical_center := 0,
    magnification_percent := none, number_of_frames_to_magnify := none,
    deflation_base := none, before := none, magnify := none, after := none }

/-- A single-frame state whose position puts frame 2 at the exact center
of the magnify window. -/
def c5CenterState : Frames :=
  { frames := [Frame.init 2], rectangle := none, position := 5/2,
    percent_away_from_vertical_center := 0, magnification_percent := none,
    number_of_frames_to_magnify := none, deflation_base := none,
    before := none, magnify := none, after := none }

/-- A single-frame state whose position puts frame 2 exactly at the
boundary of the magnify window. -/
def c5BoundaryState : Frames :=
  { frames := [Frame.init 2], rectangle := none, position := 5,
    percent_away_from_vertical_center := 0, magnification_percent := none,
    number_of_frames_to_magnify := none, deflation_base := none,
    before := none, magnify := none, after := none }

/-- A 100 by 100 container rectangle at the origin. -/
def c7CexRect : Rect := ⟨0, 0, 100, 100⟩

/-- A state with the container rectangle and one frame rectangle
recorded. -/
def c7CexState : Frames :=
  { frames := [{ number := 0, rectangle := some c7CexRect,
                 deflate_height := 0, proportion := none }],
    rectangle := some c7CexRect, position := 0,
    percent_away_from_vertical_center := 0,
    magnification_percent := none, number_of_frames_to_magnify := none,
    deflation_base := none, before := none, magnify := none, after := none }

/-- A pointer-motion event that the event collaborator reports as inside
the container, but whose point lies below the rectangle, so the reported
y-percent is 2. -/
def c7CexEvent : Event := ⟨true, ⟨50, 200⟩, fun _ => true⟩

/-- Same shape of state as `c7CexState`, used with an event at the
vertical center. -/
def c7WitnessState : Frames :=
  { frames := [{ number := 0, rectangle := some c7CexRect,
                 deflate_height := 0, proportion := none }],
    rectangle := some c7CexRect, position := 0,
    percent_away_from_vertical_center := 0,
    magnification_percent := none, number_of_frames_to_magnify := none,
    deflation_base := none, before := none, magnify := none, after := none }

/-- An in-container pointer-motion event at the exact center of the
100 by 100 container. -/
def c7WitnessEvent : Event := ⟨true, ⟨50, 50⟩, fun _ => true⟩

/-! ### Facts about the per-frame step of `update` -/

theorem processFrame_fst_number (p o d : ℚ) (f : Frame) :
    (Frames.processFrame p o d f).1.number = f.number := by
  unfold Frames.processFrame
  split_ifs <;> rfl

theorem processFrame_snd_eq_before (p o d : ℚ) (f : Frame) :
    (Frames.processFrame p o d f).2 = FrameGroup.before ↔
      (f.number : ℚ) + 1/2 < p - o := by
  unfold Frames.processFrame
  split_ifs with h1 h2 <;> simp_all

theorem processFrame_snd_eq_after (p o d : ℚ) (f : Frame) :
    (Frames.processFrame p o d f).2 = FrameGroup.after ↔
      ¬ ((f.number : ℚ) + 1/2 < p - o) ∧ (f.number : ℚ) + 1/2 > p + o := by
  unfold Frames.processFrame
  split_ifs with h1 h2 <;> simp_all

theorem processFrame_snd_eq_magnify (p o d : ℚ) (f : Frame) :
    (Frames.processFrame p o d f).2 = FrameGroup.magnify ↔
      ¬ ((f.number : ℚ) + 1/2 < p - o) ∧ ¬ ((f.number : ℚ) + 1/2 > p + o) := by
  unfold Frames.processFrame
  split_ifs with h1 h2 <;> simp_all

theorem processFrame_before_case (p o d : ℚ) (g : Frame)
    (h1 : (g.number : ℚ) + 1/2 < p - o) :
    Frames.processFrame p o d g =
      ({ g with deflate_height := d }, FrameGroup.before) := by
  unfold Frames.processFrame
  rw [if_pos h1]

theorem processFrame_after_case (p o d : ℚ) (g : Frame)
    (h1 : ¬ ((g.number : ℚ) + 1/2 < p - o))
    (h2 : (g.number : ℚ) + 1/2 > p + o) :
    Frames.processFrame p o d g =
      ({ g with deflate_height := d }, FrameGroup.after) := by
  unfold Frames.processFrame
  rw [if_neg h1, if_pos h2]

theorem processFrame_magnify_case (p o d : ℚ) (g : Frame)
    (h1 : ¬ ((g.number : ℚ) + 1/2 < p - o))
    (h2 : ¬ ((g.number : ℚ) + 1/2 > p + o)) :
    Frames.processFrame p o d g =
      ({ g with
           proportion := some (1 + (2 * (1 - |p - (g.number : ℚ) - 1/2| / o)) ^ 2),
           deflate_height := (1 - (1 - |p - (g.number : ℚ) - 1/2| / o)) * d },
        FrameGroup.magnify) := by
  unfold Frames.processFrame
  rw [if_neg h1, if_neg h2]

theorem processFrame_idem (p o d : ℚ) (f : Frame) :
    Frames.processFrame p o d (Frames.processFrame p o d f).1 =
      Frames.processFrame p o d f := by
  by_cases h1 : (f.number : ℚ) + 1/2 < p - o
  · rw [processFrame_before_case p o d f h1]
    exact processFrame_before_case p o d _ h1
  · by_cases h2 : (f.number : ℚ) + 1/2 > p + o
    · rw [processFrame_after_case p o d f h1 h2]
      exact processFrame_after_case p o d _ h1 h2
    · rw [processFrame_magnify_case p o d f h1 h2]
      exact processFrame_magnify_case p o d _ h1 h2

/-! ### The three groups as filters of the frame numbers -/

theorem update_beforeNumbers (self : Frames) (e : ℚ) :
    (self.update e).beforeNumbers =
      (self.frames.map Frame.number).filter
        (fun i : ℕ => decide ((i : ℚ) + 1/2 < self.position - 5/2)) := by
  simp only [Frames.update, Frames.beforeNumbers, Option.getD_some,
    List.map_map, List.filter_map]
  rw [List.filter_congr (fun f _ => ?_), List.map_congr_left (fun f _ => ?_)]
  · exact processFrame_fst_number _ _ _ f
  · show decide ((Frames.processFrame self.position (5/2) 30 f).2 = FrameGroup.before) = _
    simp only [Function.comp_apply]
    rw [decide_eq_decide]
    exact processFrame_snd_eq_before _ _ _ f

theorem update_magnifyNumbers (self : Frames) (e : ℚ) :
    (self.update e).magnifyNumbers =
      (self.frames.map Frame.number).filter
        (fun i : ℕ => decide (¬ ((i : ℚ) + 1/2 < self.position - 5/2) ∧
                          ¬ ((i : ℚ) + 1/2 > self.position + 5/2))) := by
  simp only [Frames.update, Frames.magnifyNumbers, Option.getD_some,
    List.map_map, List.filter_map]
  rw [List.filter_congr (fun f _ => ?_), List.map_congr_left (fun f _ => ?_)]
  · exact processFrame_fst_number _ _ _ f
  · show decide ((Frames.processFrame self.position (5/2) 30 f).2 = FrameGroup.magnify) = _
    simp only [Function.comp_apply]
    rw [decide_eq_decide]
    exact processFrame_snd_eq_magnify _ _ _ f

theorem update_afterNumbers (self : Frames) (e : ℚ) :
    (self.update e).afterNumbers =
      (self.frames.map Frame.number).filter
        (fun i : ℕ => decide (¬ ((i : ℚ) + 1/2 < self.position - 5/2) ∧
                          (i : ℚ) + 1/2 > self.position + 5/2)) := by
  simp only [Frames.update, Frames.afterNumbers, Option.getD_some,
    List.map_map, List.filter_map]
  rw [List.filter_congr (fun f _ => ?_), List.map_congr_left (fun f _ => ?_)]
  · exact processFrame_fst_number _ _ _ f
  · show decide ((Frames.processFrame self.position (5/2) 30 f).2 = FrameGroup.after) = _
    simp only [Function.comp_apply]
    rw [decide_eq_decide]
    exact processFrame_snd_eq_after _ _ _ f

/-! ### Facts about the initial state -/

theorem init_frames_map_number :
    Frames.init.frames.map Frame.number = List.range 50 := by
  show (mkFrameList 50).map Frame.number = List.range 50
  rw [mkFrameList, List.map_map]
  exact List.map_id _

theorem init_position_eq : Frames.init.position = 25 := by
  show ((mkFrameList 50).length : ℚ) / 2 = 25
  rw [mkFrameList, List.length_map, List.length_range]
  norm_num

theorem init_position_bounds :
    0 ≤ Frames.init.position ∧ Frames.init.position ≤ (50 : ℚ) := by
  rw [init_position_eq]
  norm_num

/-! ### Concrete groups of the first update of the initial state -/

theorem c2h_before : (Frames.init.update 0).beforeNumbers = List.range 22 := by
  rw [update_beforeNumbers, init_frames_map_number, init_position_eq]
  have hcong : ∀ i ∈ List.range 50,
      (fun i : ℕ => decide ((i : ℚ) + 1/2 < 25 - 5/2)) i =
      (fun i : ℕ => decide (i < 22)) i := by
    intro i hi
    simp only
    rw [decide_eq_decide]
    constructor
    · intro h
      by_contra hcon
      push_neg at hcon
      have hc : (22 : ℚ) ≤ (i : ℚ) := by exact_mod_cast hcon
      linarith
    · intro h
      have hc : (i : ℚ) < 22 := by exact_mod_cast h
      linarith
  rw [List.filter_congr hcong]
  decide

theorem c2h_magnify :
    (Frames.init.update 0).magnifyNumbers = [22, 23, 24, 25, 26, 27] := by
  rw [update_magnifyNumbers, init_frames_map_number, init_position_eq]
  have hcong : ∀ i ∈ List.range 50,
      (fun i : ℕ => decide (¬ ((i : ℚ) + 1/2 < 25 - 5/2) ∧
                            ¬ ((i : ℚ) + 1/2 > 25 + 5/2))) i =
      (fun i : ℕ => decide (22 ≤ i ∧ i ≤ 27)) i := by
    intro i hi
    simp only
    rw [decide_eq_decide]
    constructor
    · rintro ⟨h1, h2⟩
      push_neg at h1 h2
      constructor
      · by_contra hcon
        push_neg at hcon
        have hc : (i : ℚ) + 1 ≤ 22 := by exact_mod_cast hcon
        linarith
      · by_contra hcon
        push_neg at hcon
        have hc : (28 : ℚ) ≤ (i : ℚ) := by exact_mod_cast hcon
        linarith
    · rintro ⟨h1, h2⟩
      have hc1 : (22 : ℚ) ≤ (i : ℚ) := by exact_mod_cast h1
      have hc2 : (i : ℚ) ≤ 27 := by exact_mod_cast h2
      constructor
      · intro hcon
        linarith
      · intro hcon
        linarith
  rw [List.filter_congr hcong]
  decide

theorem c2h_after : (Frames.init.update 0).afterNumbers = List.range' 28 22 := by
  rw [update_afterNumbers, init_frames_map_number, init_position_eq]
  have hcong : ∀ i ∈ List.range 50,
      (fun i : ℕ => decide (¬ ((i : ℚ) + 1/2 < 25 - 5/2) ∧
                            (i : ℚ) + 1/2 > 25 + 5/2)) i =
      (fun i : ℕ => decide (28 ≤ i)) i := by
    intro i hi
    simp only
    rw [decide_eq_decide]
    constructor
    · rintro ⟨h1, h2⟩
      by_contra hcon
      push_neg at hcon
      have hc : (i : ℚ) + 1 ≤ 28 := by exact_mod_cast hcon
      linarith
    · intro h
      have hc : (28 : ℚ) ≤ (i : ℚ) := by exact_mod_cast h
      constructor
      · intro hcon
        linarith
      · linarith
  rw [List.filter_congr hcong]
  decide

/-! ### The magnify group and its per-frame values -/

theorem mem_update_magnify (self : Frames) (e : ℚ) (f : Frame)
    (hmem : f ∈ (self.update e).magnify.getD []) :
    ∃ g ∈ self.frames,
      ¬ ((g.number : ℚ) + 1/2 < self.position - 5/2) ∧
      ¬ ((g.number : ℚ) + 1/2 > self.position + 5/2) ∧
      f = { g with
              proportion := some (1 + (2 * (1 - |self.position - (g.number : ℚ) - 1/2| / (5/2))) ^ 2),
              deflate_height :=
                (1 - (1 - |self.position - (g.number : ℚ) - 1/2| / (5/2))) * 30 } := by
  simp only [Frames.update, Option.getD_some, List.mem_map, List.mem_filter,
    decide_eq_true_eq] at hmem
  obtain ⟨q, ⟨hq, hsnd⟩, hfst⟩ := hmem
  obtain ⟨g, hg, rfl⟩ := hq
  have hcond := (processFrame_snd_eq_magnify self.position (5/2) 30 g).mp hsnd
  refine ⟨g, hg, hcond.1, hcond.2, ?_⟩
  rw [← hfst, processFrame_magnify_case self.position (5/2) 30 g hcond.1 hcond.2]

theorem update_magnify_proportion_isSome (self : Frames) (e : ℚ) :
    ∀ f ∈ (self.update e).magnify.getD [], f.proportion.isSome = true := by
  intro f hf
  obtain ⟨g, hg, h1, h2, hf2⟩ := mem_update_magnify self e f hf
  rw [hf2]
  rfl

/-! ### The hit-test loop -/

theorem collectPositions_eq_candidates (p : Point) (l : List Frame)
    (h : ∀ f ∈ l, f.rectangle.isSome) :
    collectPositions p l = some (candidateValues l p) := by
  induction l with
  | nil => rfl
  | cons f fs ih =>
    obtain ⟨r, hr⟩ := Option.isSome_iff_exists.mp (h f (List.mem_cons_self f fs))
    have ih2 := ih (fun g hg => h g (List.mem_cons_of_mem f hg))
    by_cases hc : r.contains p = true
    · simp only [collectPositions, candidateValues, List.filterMap_cons, hr, ih2,
        Option.some_bind, hc, if_pos]
    · simp only [collectPositions, candidateValues, List.filterMap_cons, hr, ih2,
        Option.some_bind]
      rw [if_neg hc, if_neg hc]

/-! ### The magnify band reads of the draw pass -/

theorem readProportions_isSome (l : List Frame)
    (h : ∀ f ∈ l, f.proportion.isSome = true) :
    (readProportions l).isSome = true := by
  induction l with
  | nil => rfl
  | cons f fs ih =>
    obtain ⟨v, hv⟩ := Option.isSome_iff_exists.mp (h f (List.mem_cons_self f fs))
    obtain ⟨rest, hrest⟩ := Option.isSome_iff_exists.mp
      (ih (fun g hg => h g (List.mem_cons_of_mem f hg)))
    simp [readProportions, hv, hrest]

/-! ### Claim theorems -/

/-- C1: for every frame count N with 0 < N and every position in [0, N],
one call to `Frames.update` puts each frame number below N in exactly one
of the groups before, magnify or after (no overlap, no gap), each group's
numbers are sorted ascending and contiguous, every before number is below
every magnify number, and every magnify number is below every after
number. -/
theorem c1_update_partitions_frames (self : Frames) (elapsed_ms : ℚ) (N : ℕ)
    (hN : 0 < N)
    (hframes : self.frames.map Frame.number = List.range N)
    (hpos : 0 ≤ self.position ∧ self.position ≤ (N : ℚ)) :
    (∀ i : ℕ, i < N →
       (i ∈ (self.update elapsed_ms).beforeNumbers ∨
        i ∈ (self.update elapsed_ms).magnifyNumbers ∨
        i ∈ (self.update elapsed_ms).afterNumbers)) ∧
    (∀ i : ℕ,
       (i ∈ (self.update elapsed_ms).beforeNumbers ∨
        i ∈ (self.update elapsed_ms).magnifyNumbers ∨
        i ∈ (self.update elapsed_ms).afterNumbers) → i < N) ∧
    (∀ i : ℕ,
       ¬ (i ∈ (self.update elapsed_ms).beforeNumbers ∧
          i ∈ (self.update elapsed_ms).magnifyNumbers) ∧
       ¬ (i ∈ (self.update elapsed_ms).beforeNumbers ∧
          i ∈ (self.update elapsed_ms).afterNumbers) ∧
       ¬ (i ∈ (self.update elapsed_ms).magnifyNumbers ∧
          i ∈ (self.update elapsed_ms).afterNumbers)) ∧
    ((self.update elapsed_ms).beforeNumbers.Sorted (· < ·) ∧
     (self.update elapsed_ms).magnifyNumbers.Sorted (· < ·) ∧
     (self.update elapsed_ms).afterNumbers.Sorted (· < ·)) ∧
    (ContiguousNums (self.update elapsed_ms).beforeNumbers ∧
     ContiguousNums (self.update elapsed_ms).magnifyNumbers ∧
     ContiguousNums (self.update elapsed_ms).afterNumbers) ∧
    (∀ i ∈ (self.update elapsed_ms).beforeNumbers,
       ∀ j ∈ (self.update elapsed_ms).magnifyNumbers, i < j) ∧
    (∀ j ∈ (self.update elapsed_ms).magnifyNumbers,
       ∀ k ∈ (self.update elapsed_ms).afterNumbers, j < k) := by
  have hB := update_beforeNumbers self elapsed_ms
  have hM := update_magnifyNumbers self elapsed_ms
  have hA := update_afterNumbers self elapsed_ms
  rw [hframes] at hB hM hA
  have memB : ∀ i : ℕ, i ∈ (self.update elapsed_ms).beforeNumbers ↔
      i < N ∧ ((i : ℚ) + 1/2 < self.position - 5/2) := by
    intro i
    rw [hB]
    simp [List.mem_filter, List.mem_range]
  have memM : ∀ i : ℕ, i ∈ (self.update elapsed_ms).magnifyNumbers ↔
      i < N ∧ (self.position - 5/2 ≤ (i : ℚ) + 1/2 ∧
               (i : ℚ) + 1/2 ≤ self.position + 5/2) := by
    intro i
    rw [hM]
    simp only [List.mem_filter, List.mem_range, decide_eq_true_eq, not_lt, gt_iff_lt]
  have memA : ∀ i : ℕ, i ∈ (self.update elapsed_ms).afterNumbers ↔
      i < N ∧ (self.position - 5/2 ≤ (i : ℚ) + 1/2 ∧
               self.position + 5/2 < (i : ℚ) + 1/2) := by
    intro i
    rw [hA]
    simp only [List.mem_filter, List.mem_range, decide_eq_true_eq, not_lt, gt_iff_lt]
  refine ⟨?_, ?_, ?_, ⟨?_, ?_, ?_⟩, ⟨?_, ?_, ?_⟩, ?_, ?_⟩
  · intro i hi
    by_cases h1 : (i : ℚ) + 1/2 < self.position - 5/2
    · exact Or.inl ((memB i).mpr ⟨hi, h1⟩)
    · by_cases h2 : self.position + 5/2 < (i : ℚ) + 1/2
      · exact Or.inr (Or.inr ((memA i).mpr ⟨hi, not_lt.mp h1, h2⟩))
      · exact Or.inr (Or.inl ((memM i).mpr ⟨hi, not_lt.mp h1, not_lt.mp h2⟩))
  · intro i hi
    rcases hi with h | h | h
    · exact ((memB i).mp h).1
    · exact ((memM i).mp h).1
    · exact ((memA i).mp h).1
  · intro i
    refine ⟨?_, ?_, ?_⟩
    · rintro ⟨hb, hm⟩
      have h1 := ((memB i).mp hb).2
      have h2 := ((memM i).mp hm).2.1
      linarith
    · rintro ⟨hb, ha⟩
      have h1 := ((memB i).mp hb).2
      have h2 := ((memA i).mp ha).2.1
      linarith
    · rintro ⟨hm, ha⟩
      have h1 := ((memM i).mp hm).2.2
      have h2 := ((memA i).mp ha).2.2
      linarith
  · rw [hB]
    exact (List.pairwise_lt_range N).filter _
  · rw [hM]
    exact (List.pairwise_lt_range N).filter _
  · rw [hA]
    exact (List.pairwise_lt_range N).filter _
  · intro i j k hi hk hij hjk
    have h2 := (memB k).mp hk
    have hc : (j : ℚ) ≤ (k : ℚ) := by exact_mod_cast hjk
    refine (memB j).mpr ⟨lt_of_le_of_lt hjk h2.1, by linarith [h2.2]⟩
  · intro i j k hi hk hij hjk
    have h1 := (memM i).mp hi
    have h2 := (memM k).mp hk
    have hc1 : (i : ℚ) ≤ (j : ℚ) := by exact_mod_cast hij
    have hc2 : (j : ℚ) ≤ (k : ℚ) := by exact_mod_cast hjk
    refine (memM j).mpr ⟨lt_of_le_of_lt hjk h2.1, by linarith [h1.2.1], by linarith [h2.2.2]⟩
  · intro i j k hi hk hij hjk
    have h1 := (memA i).mp hi
    have h2 := (memA k).mp hk
    have hc1 : (i : ℚ) ≤ (j : ℚ) := by exact_mod_cast hij
    refine (memA j).mpr ⟨lt_of_le_of_lt hjk h2.1, by linarith [h1.2.1], by linarith [h1.2.2]⟩
  · intro i hi j hj
    have h1 := (memB i).mp hi
    have h2 := (memM j).mp hj
    have hc : (i : ℚ) < (j : ℚ) := by linarith [h1.2, h2.2.1]
    exact_mod_cast hc
  · intro j hj k hk
    have h1 := (memM j).mp hj
    have h2 := (memA k).mp hk
    have hc : (j : ℚ) < (k : ℚ) := by linarith [h1.2.2, h2.2.2]
    exact_mod_cast hc

/-- Witness for C1 at N = 50 on the initial state. -/
theorem c1_update_partitions_frames_witness :
    (Frames.init.frames.map Frame.number = List.range 50) ∧
    (0 ≤ Frames.init.position ∧ Frames.init.position ≤ (50 : ℚ)) ∧
    ((Frames.init.update 0).beforeNumbers.Sorted (· < ·) ∧
     (Frames.init.update 0).magnifyNumbers.Sorted (· < ·) ∧
     (Frames.init.update 0).afterNumbers.Sorted (· < ·)) :=
  ⟨init_frames_map_number, init_position_bounds,
    (c1_update_partitions_frames Frames.init 0 50 (by decide) init_frames_map_number
      init_position_bounds).2.2.2.1⟩

/-- C2 counterexample: with the idle position 25, the claimed `before`
group {0..22} is wrong: the code's before group is {0..21} (frame 22 is in
the magnify group). -/
theorem c2_before_group_counterexample :
    (Frames.init.update 0).beforeNumbers ≠ List.range 23 := by
  rw [c2h_before]
  decide

/-- C2 as amended: with 50 frames and no pointer event, the position is
25, and one update makes magnify = {22..27}, before = {0..21} and
after = {28..49}. -/
theorem c2_initial_update_layout :
    Frames.init.position = 25 ∧
    (Frames.init.update 0).magnifyNumbers = [22, 23, 24, 25, 26, 27] ∧
    (Frames.init.update 0).beforeNumbers = List.range 22 ∧
    (Frames.init.update 0).afterNumbers = List.range' 28 22 :=
  ⟨init_position_eq, c2h_magnify, c2h_before, c2h_after⟩

/-- C3: on the initial state, where no frame has a recorded rectangle,
`find_position` does not return the idle default 25: the loop dereferences
an absent rectangle and faults (`none`), contrary to the claimed (and
spec-required) defensive fall-through. -/
theorem c3_find_position_faults_without_rectangles :
    Frames.init.find_position ⟨0, 0⟩ = none := rfl

/-- C4: when every frame has a recorded rectangle and at least one of
those rectangles contains the point, `find_position` returns the
arithmetic mean of `index + percentWithin(p).x` over all frames whose
rectangle contains the point. -/
theorem c4_find_position_averages (self : Frames) (p : Point)
    (hrects : ∀ f ∈ self.frames, f.rectangle.isSome)
    (hne : candidateValues self.frames p ≠ []) :
    self.find_position p =
      some ((candidateValues self.frames p).sum /
            ((candidateValues self.frames p).length : ℚ)) := by
  unfold Frames.find_position
  rw [collectPositions_eq_candidates p self.frames hrects]
  simp [hne]

/-- Witness for C4 on a two-frame state whose rectangles both contain the
point: the tie is averaged. -/
theorem c4_find_position_averages_witness :
    (∀ f ∈ c4TwoFrameState.frames, f.rectangle.isSome) ∧
    candidateValues c4TwoFrameState.frames ⟨50, 50⟩ ≠ [] ∧
    c4TwoFrameState.find_position ⟨50, 50⟩ =
      some ((candidateValues c4TwoFrameState.frames ⟨50, 50⟩).sum /
            ((candidateValues c4TwoFrameState.frames ⟨50, 50⟩).length : ℚ)) := by
  have h1 : ∀ f ∈ c4TwoFrameState.frames, f.rectangle.isSome := by
    intro f hf
    simp only [c4TwoFrameState, List.mem_cons, List.not_mem_nil, or_false] at hf
    rcases hf with rfl | rfl <;> rfl
  have h2 : candidateValues c4TwoFrameState.frames ⟨50, 50⟩ ≠ [] := by
    norm_num [candidateValues, c4TwoFrameState, Rect.contains, Rect.percent,
      List.filterMap_cons]
    exact List.cons_ne_nil _ _
  exact ⟨h1, h2, c4_find_position_averages c4TwoFrameState ⟨50, 50⟩ h1 h2⟩

/-- C5: after an update, a magnify-group frame at the exact center
(`number + 0.5 = position`) has `proportion = 1 + 2² = 5` and
`deflate_height = 0`; a magnify-group frame at the window boundary
(`|position - number - 0.5| = 5/2`) has `proportion = 1` and
`deflate_height = 30` (the deflation base). -/
theorem c5_magnify_center_and_boundary (self : Frames) (e : ℚ) (f : Frame)
    (hmem : f ∈ (self.update e).magnify.getD []) :
    (((f.number : ℚ) + 1/2 = self.position) →
       f.proportion = some 5 ∧ f.deflate_height = 0) ∧
    ((|self.position - (f.number : ℚ) - 1/2| = 5/2) →
       f.proportion = some 1 ∧ f.deflate_height = 30) := by
  obtain ⟨g, hg, h1, h2, hf⟩ := mem_update_magnify self e f hmem
  have hnum : f.number = g.number := by rw [hf]
  constructor
  · intro hc
    rw [hnum] at hc
    have habs : |self.position - (g.number : ℚ) - 1/2| = 0 := by
      rw [abs_eq_zero]
      linarith
    rw [hf]
    simp only [habs]
    constructor
    · show some (1 + (2 * (1 - 0 / (5/2 : ℚ))) ^ 2) = some 5
      norm_num
    · show (1 - (1 - 0 / (5/2 : ℚ))) * 30 = 0
      norm_num
  · intro hc
    rw [hnum] at hc
    rw [hf]
    simp only [hc]
    constructor
    · show some (1 + (2 * (1 - (5/2 : ℚ) / (5/2))) ^ 2) = some 1
      norm_num
    · show (1 - (1 - (5/2 : ℚ) / (5/2))) * 30 = 30
      norm_num

/-- Witness for C5: a center frame (position 5/2, frame 2) and a boundary
frame (position 5, frame 2). -/
theorem c5_magnify_center_and_boundary_witness :
    ((⟨2, none, 0, some 5⟩ : Frame) ∈ (c5CenterState.update 0).magnify.getD [] ∧
     ((2 : ℚ) + 1/2 = c5CenterState.position) ∧
     ((⟨2, none, 0, some 5⟩ : Frame).proportion = some 5 ∧
      (⟨2, none, 0, some 5⟩ : Frame).deflate_height = 0)) ∧
    ((⟨2, none, 30, some 1⟩ : Frame) ∈ (c5BoundaryState.update 0).magnify.getD [] ∧
     (|c5BoundaryState.position - ((2 : ℕ) : ℚ) - 1/2| = 5/2) ∧
     ((⟨2, none, 30, some 1⟩ : Frame).proportion = some 1 ∧
      (⟨2, none, 30, some 1⟩ : Frame).deflate_height = 30)) := by
  have hmA : (⟨2, none, 0, some 5⟩ : Frame) ∈ (c5CenterState.update 0).magnify.getD [] := by
    norm_num [Frames.update, Frames.processFrame, c5CenterState, Frame.init,
      List.filter_cons, List.filter_nil, Option.getD_some]
  have hcA : ((2 : ℕ) : ℚ) + 1/2 = c5CenterState.position := by
    norm_num [c5CenterState]
  have hmB : (⟨2, none, 30, some 1⟩ : Frame) ∈ (c5BoundaryState.update 0).magnify.getD [] := by
    have habs : |(5 : ℚ)/2| = 5/2 := abs_of_pos (by norm_num)
    norm_num [Frames.update, Frames.processFrame, c5BoundaryState, Frame.init,
      List.filter_cons, List.filter_nil, Option.getD_some, habs]
  have hcB : |c5BoundaryState.position - ((2 : ℕ) : ℚ) - 1/2| = 5/2 := by
    show |(5 : ℚ) - 2 - 1/2| = 5/2
    rw [show (5 : ℚ) - 2 - 1/2 = 5/2 by norm_num]
    exact abs_of_pos (by norm_num)
  exact ⟨⟨hmA, hcA, (c5_magnify_center_and_boundary c5CenterState 0 _ hmA).1 hcA⟩,
         ⟨hmB, hcB, (c5_magnify_center_and_boundary c5BoundaryState 0 _ hmB).2 hcB⟩⟩

/-- C6: a pointer-motion event whose point is not inside the container
rectangle changes no state: the handler returns the state unchanged, so
`position` and the vertical intensity keep their last values, and a
position away from the idle default stays away from it. -/
theorem c6_outside_event_changes_nothing (self : Frames) (e : Event)
    (hm : e.mouse_motion = true)
    (h : e.mouse_motion_inside self.rectangle = false) :
    Frames.event self e = some self ∧
    (self.position ≠ (self.frames.length : ℚ) / 2 →
      ∀ t : Frames, Frames.event self e = some t →
        t.position ≠ (self.frames.length : ℚ) / 2) := by
  have hev : Frames.event self e = some self := by
    unfold Frames.event
    simp [hm, h]
  refine ⟨hev, ?_⟩
  intro htrack t ht
  rw [hev] at ht
  cases ht
  exact htrack

/-- Witness for C6 at a concrete outside event on the initial state. -/
theorem c6_outside_event_changes_nothing_witness :
    (Event.mouse_motion ⟨true, ⟨0, 0⟩, fun _ => false⟩ = true) ∧
    (Event.mouse_motion_inside ⟨true, ⟨0, 0⟩, fun _ => false⟩
        Frames.init.rectangle = false) ∧
    Frames.event Frames.init ⟨true, ⟨0, 0⟩, fun _ => false⟩ = some Frames.init :=
  ⟨rfl, rfl,
    (c6_outside_event_changes_nothing Frames.init ⟨true, ⟨0, 0⟩, fun _ => false⟩
      rfl rfl).1⟩

/-- C7 counterexample: the stored vertical intensity is not clamped into
[0, 1]. An in-container motion event (per the event collaborator's
predicate) whose reported y-percent is 2 stores the intensity 3. -/
theorem c7_no_clamp_counterexample :
    ∃ t : Frames, Frames.event c7CexState c7CexEvent = some t ∧
      1 < t.percent_away_from_vertical_center := by
  have hev : Frames.event c7CexState c7CexEvent =
      some { c7CexState with
               position := 1/2
               percent_away_from_vertical_center := 3 } := by
    have habs : |1/2 - (2 : ℚ)| = 3/2 := by
      rw [abs_of_neg] <;> norm_num
    have habs2 : |(3 : ℚ)/2| = 3/2 := abs_of_pos (by norm_num)
    norm_num [Frames.event, Event.mouse_motion, Event.mouse_motion_inside,
      Event.mouse_point, c7CexState, c7CexEvent, Frames.find_position,
      collectPositions, Rect.contains, Rect.percent, c7CexRect, habs, habs2]
  refine ⟨_, hev, ?_⟩
  norm_num

/-- C7 as amended: for an in-container pointer-move event (container
rectangle recorded, hit test succeeding), the stored vertical intensity is
exactly `2 * |1/2 - y-percent|` with no clamping; it is 0 at the vertical
center, and it lies in [0, 1] whenever the reported y-percent lies in
[0, 1] (out-of-range reports are stored unclamped, see the
counterexample). -/
theorem c7_vertical_intensity_formula (self : Frames) (e : Event) (r : Rect) (pos : ℚ)
    (hin : e.mouse_motion_inside self.rectangle = true)
    (hrect : self.rectangle = some r)
    (hfp : self.find_position e.mouse_point = some pos) :
    Frames.event self e =
      some { self with
               position := pos
               percent_away_from_vertical_center :=
                 2 * |1/2 - (r.percent e.mouse_point).y| } ∧
    ((r.percent e.mouse_point).y = 1/2 →
       2 * |1/2 - (r.percent e.mouse_point).y| = 0) ∧
    (0 ≤ (r.percent e.mouse_point).y → (r.percent e.mouse_point).y ≤ 1 →
       0 ≤ 2 * |1/2 - (r.percent e.mouse_point).y| ∧
       2 * |1/2 - (r.percent e.mouse_point).y| ≤ 1) := by
  have hm : e.mouse_motion = true := by
    have hh := hin
    unfold Event.mouse_motion_inside at hh
    exact (Bool.and_eq_true _ _).mp hh |>.1
  refine ⟨?_, ?_, ?_⟩
  · unfold Frames.event
    rw [if_pos hm, if_pos hin, hfp, hrect]
  · intro hy
    rw [hy]
    norm_num
  · intro h0 h1
    constructor
    · positivity
    · have habs : |1/2 - (r.percent e.mouse_point).y| ≤ 1/2 :=
        abs_le.mpr ⟨by linarith, by linarith⟩
      linarith

/-- Witness for C7 at an in-container event at the exact vertical
center. -/
theorem c7_vertical_intensity_formula_witness :
    (Event.mouse_motion_inside c7WitnessEvent c7WitnessState.rectangle = true) ∧
    (c7WitnessState.rectangle = some c7CexRect) ∧
    (c7WitnessState.find_position (Event.mouse_point c7WitnessEvent) = some (1/2)) ∧
    (0 ≤ 2 * |1/2 - (c7CexRect.percent (Event.mouse_point c7WitnessEvent)).y| ∧
     2 * |1/2 - (c7CexRect.percent (Event.mouse_point c7WitnessEvent)).y| ≤ 1) := by
  have h1 : Event.mouse_motion_inside c7WitnessEvent c7WitnessState.rectangle = true := rfl
  have h2 : c7WitnessState.rectangle = some c7CexRect := rfl
  have h3 : c7WitnessState.find_position (Event.mouse_point c7WitnessEvent) = some (1/2) := by
    norm_num [Frames.find_position, collectPositions, c7WitnessState, c7WitnessEvent,
      Event.mouse_point, Rect.contains, Rect.percent, c7CexRect]
  have hy : (c7CexRect.percent (Event.mouse_point c7WitnessEvent)).y = 1/2 := by
    norm_num [Rect.percent, Event.mouse_point, c7WitnessEvent, c7CexRect]
  refine ⟨h1, h2, h3,
    (c7_vertical_intensity_formula c7WitnessState c7WitnessEvent c7CexRect (1/2) h1 h2 h3).2.2
      (by rw [hy]; norm_num) (by rw [hy]; norm_num)⟩

/-- C8: calling `Frames.update` twice in a row with no intervening pointer
event is a no-op: the second call reproduces the whole state, group
membership and per-frame scale and deflation values included. -/
theorem c8_update_idempotent (self : Frames) (e1 e2 : ℚ) :
    (self.update e1).update e2 = self.update e1 := by
  have key : ∀ l : List Frame,
      ((l.map (Frames.processFrame self.position (5/2) 30)).map Prod.fst).map
          (Frames.processFrame self.position (5/2) 30) =
        l.map (Frames.processFrame self.position (5/2) 30) := by
    intro l
    rw [List.map_map, List.map_map]
    exact List.map_congr_left (fun f _ => processFrame_idem _ _ _ f)
  simp only [Frames.update]
  rw [key]

/-- C9: the result of `Frames.update` does not depend on its `elapsed_ms`
argument: for any state and any two elapsed values the resulting states
(groups, per-frame scale and deflation values included) are identical. -/
theorem c9_update_ignores_elapsed_ms (self : Frames) (e1 e2 : ℚ) :
    self.update e1 = self.update e2 := rfl

/-- C10: calling `Frames.draw` on a state whose `before` attribute was
never created (no update has run; by construction `before`, `magnify`,
`after` and `magnification_percent` are all created together by the first
update) faults, whereas after one update every attribute read in the draw
pass is defined, so draw succeeds. -/
theorem c10_draw_requires_update (self : Frames) (e : ℚ) (canvas : Rect)
    (hb : self.before = none) (hne : self.frames ≠ []) :
    self.draw canvas = none ∧
    ((self.update e).draw canvas).isSome = true := by
  constructor
  · simp [Frames.draw, hb]
  · obtain ⟨ml, hml⟩ : ∃ ml, (self.update e).magnify = some ml := ⟨_, rfl⟩
    have hfm : ∀ f ∈ ml, f.proportion.isSome = true := by
      have hh := update_magnify_proportion_isSome self e
      rw [hml] at hh
      simpa using hh
    obtain ⟨props, hp⟩ := Option.isSome_iff_exists.mp (readProportions_isSome ml hfm)
    have hlen : ¬ ((self.update e).frames.length = 0) := by
      have hl : (self.update e).frames.length = self.frames.length := by
        simp [Frames.update]
      rw [hl]
      exact fun hcon => hne (List.length_eq_zero.mp hcon)
    unfold Frames.draw
    obtain ⟨bl, hbl⟩ : ∃ bl, (self.update e).before = some bl := ⟨_, rfl⟩
    obtain ⟨al, hal⟩ : ∃ al, (self.update e).after = some al := ⟨_, rfl⟩
    obtain ⟨mq, hmq⟩ : ∃ mq, (self.update e).magnification_percent = some mq := ⟨_, rfl⟩
    simp [hbl, hml, hal, hmq, hlen, hp]

/-- Witness for C10 on the initial state. -/
theorem c10_draw_requires_update_witness :
    Frames.init.before = none ∧ Frames.init.frames ≠ [] ∧
    Frames.init.draw ⟨0, 0, 1000, 500⟩ = none ∧
    ((Frames.init.update 0).draw ⟨0, 0, 1000, 500⟩).isSome = true := by
  have h1 : Frames.init.before = none := rfl
  have h2 : Frames.init.frames ≠ [] := by
    show mkFrameList 50 ≠ []
    decide
  exact ⟨h1, h2,
    (c10_draw_requires_update Frames.init 0 ⟨0, 0, 1000, 500⟩ h1 h2).1,
    (c10_draw_requires_update Frames.init 0 ⟨0, 0, 1000, 500⟩ h1 h2).2⟩
